import Mathlib

/-!
Verification development for the Granular Certificate (GC) Registry.

This file gives a shallow embedding, in Lean 4, of the parts of the
registry that the checked properties concern:

* the certificate data model (`gc_registry/certificate/schemas.py`; the
  table models in `gc_registry/certificate/models.py` mirror the base
  schemas there, adding the server-assigned `id`),
* the split engine and the action services
  (`gc_registry/certificate/services.py`),
* the CQRS coordinator (`gc_registry/core/database/cqrs.py`),
* the issuance-ID encoder and decoder
  (`gc_registry/certificate/services.py`),
* the storage allocation validation
  (`gc_registry/storage/validation.py`, `gc_registry/storage/services.py`).

Database sessions are modelled as explicit state: a store is a committed
row list plus a flushed-but-uncommitted row list, and a service-level
registry state is a list of bundle rows plus a fresh-id counter.  Python
exceptions are modelled with `Except String`; service functions return the
state reached at the moment the exception propagates, so "raises and
changes nothing" is expressible.  Machine integers are `Int`/`Nat`
(Python ints are unbounded), floats that only ever hold exact fractions
(`certificate_bundle_percentage`, `sdr_proportion`) are `Rat`.
-/

/-- `CertificateStatus` from `gc_registry/core/models/base.py`. -/
inductive CertificateStatus where
  | ACTIVE
  | CANCELLED
  | CLAIMED
  | EXPIRED
  | WITHDRAWN
  | LOCKED
  | RESERVED
  | BUNDLE_SPLIT
deriving DecidableEq, Repr

/-- Naive UTC timestamp, the model of Python `datetime.datetime` as the
registry stores it (`production_starting_interval` and friends). -/
structure PyDateTime where
  year : Nat
  month : Nat
  day : Nat
  hour : Nat
  minute : Nat
  second : Nat
deriving DecidableEq, Repr

/-- Days in a month, with the Gregorian leap rule, as Python's
`datetime` validates the `day` field. -/
def PyDateTime.daysInMonth (y m : Nat) : Nat :=
  if m = 2 then
    if (y % 4 = 0 && y % 100 ≠ 0) || y % 400 = 0 then 29 else 28
  else if m = 4 || m = 6 || m = 9 || m = 11 then 30
  else 31

/-- Field bounds enforced by Python's `datetime` constructor
(`MINYEAR = 1`, `MAXYEAR = 9999`). -/
def PyDateTime.Valid (t : PyDateTime) : Prop :=
  1 ≤ t.year ∧ t.year ≤ 9999 ∧
  1 ≤ t.month ∧ t.month ≤ 12 ∧
  1 ≤ t.day ∧ t.day ≤ PyDateTime.daysInMonth t.year t.month ∧
  t.hour ≤ 23 ∧ t.minute ≤ 59 ∧ t.second ≤ 59

instance (t : PyDateTime) : Decidable t.Valid := by
  unfold PyDateTime.Valid; infer_instance

/-- Lexicographic comparison of timestamps, the order Python datetimes
compare in. -/
def PyDateTime.leb (a b : PyDateTime) : Bool :=
  if a.year ≠ b.year then a.year < b.year
  else if a.month ≠ b.month then a.month < b.month
  else if a.day ≠ b.day then a.day < b.day
  else if a.hour ≠ b.hour then a.hour < b.hour
  else if a.minute ≠ b.minute then a.minute < b.minute
  else a.second ≤ b.second

def PyDateTime.ltb (a b : PyDateTime) : Bool :=
  a.leb b && a ≠ b

/-- The (write-store) row of `GranularCertificateBundle`
(`gc_registry/certificate/models.py`, mirroring
`GranularCertificateBundleBase` in `gc_registry/certificate/schemas.py`
plus the server-assigned `id`).  Fields the modelled services never read
or write are not carried. -/
structure GCBundle where
  id : Nat
  issuance_id : List Char
  account_id : Nat
  device_id : Nat
  certificate_bundle_status : CertificateStatus
  certificate_bundle_id_range_start : Int
  certificate_bundle_id_range_end : Int
  bundle_quantity : Int
  beneficiary : Option String
  energy_source : String
  production_starting_interval : PyDateTime
  production_ending_interval : PyDateTime
  is_deleted : Bool
deriving DecidableEq, Repr

/-- Service-level database state: the bundle table plus the sequence that
hands out server-assigned ids. -/
structure RegState where
  bundles : List GCBundle
  nextId : Nat
deriving DecidableEq, Repr

def exceptIsOk {α : Type} : Except String α → Bool
  | .ok _ => true
  | .error _ => false

/-- `split_certificate_bundle` (`gc_registry/certificate/services.py`,
lines 64-143).  Guard clauses, child construction (child 1 keeps the
parent's range start and receives `range_end := range_start + size`,
child 2 receives `range_start := child1.range_end + 1` and keeps the
parent's range end), parent marked `BUNDLE_SPLIT` and soft-deleted, and
the children written with fresh server ids. -/
def split_certificate_bundle (b : GCBundle) (size_to_split : Int)
    (st : RegState) : RegState × Except String (GCBundle × GCBundle) :=
  if size_to_split = 0 then
    (st, .error "The size to split must be greater than 0")
  else if b.bundle_quantity ≤ size_to_split then
    (st, .error "The size to split must be less than the total certificates in the parent bundle")
  else
    let child1 : GCBundle :=
      { b with
        bundle_quantity := size_to_split
        certificate_bundle_id_range_end :=
          b.certificate_bundle_id_range_start + size_to_split }
    let child2 : GCBundle :=
      { b with
        bundle_quantity := b.bundle_quantity - size_to_split
        certificate_bundle_id_range_start :=
          child1.certificate_bundle_id_range_end + 1 }
    let afterParent : List GCBundle := st.bundles.map (fun x =>
      if x.id = b.id then
        { x with certificate_bundle_status := .BUNDLE_SPLIT, is_deleted := true }
      else x)
    let c1 : GCBundle := { child1 with id := st.nextId }
    let c2 : GCBundle := { child2 with id := st.nextId + 1 }
    ({ bundles := afterParent ++ [c1, c2], nextId := st.nextId + 2 },
      .ok (c1, c2))

example :
    (split_certificate_bundle
      { id := 1, issuance_id := [], account_id := 1, device_id := 1,
        certificate_bundle_status := .ACTIVE,
        certificate_bundle_id_range_start := 1,
        certificate_bundle_id_range_end := 100,
        bundle_quantity := 100, beneficiary := none,
        energy_source := "wind",
        production_starting_interval := ⟨2024, 1, 1, 0, 0, 0⟩,
        production_ending_interval := ⟨2024, 1, 1, 1, 0, 0⟩,
        is_deleted := false }
      25 ⟨[], 2⟩).2.toOption.map
        (fun p => (p.1.certificate_bundle_id_range_start,
                   p.1.certificate_bundle_id_range_end,
                   p.2.certificate_bundle_id_range_start,
                   p.2.certificate_bundle_id_range_end)) =
    some (1, 26, 27, 100) := by decide

/-! ### Issuance-ID encoding (`create_issuance_id`,
`issuance_id_to_device_and_interval`, `gc_registry/certificate/services.py`
lines 146-165).

Python's `str.split(sep)` on a one-character separator, `str.join`,
`int(...)` on a digit string and `datetime.fromisoformat` on the
canonical `YYYY-MM-DD HH:MM:SS` rendering of a naive datetime are
modelled over `List Char`. -/

/-- `s.split(c)` for a one-character separator: always non-empty, empty
pieces preserved. -/
def splitChar (c : Char) : List Char → List (List Char)
  | [] => [[]]
  | x :: xs =>
    if x = c then [] :: splitChar c xs
    else
      match splitChar c xs with
      | [] => [[x]]
      | g :: gs => (x :: g) :: gs

/-- `c.join(pieces)` for a one-character separator. -/
def joinChar (c : Char) : List (List Char) → List Char
  | [] => []
  | [g] => g
  | g :: gs => g ++ c :: joinChar c gs

def charOfDigit : Nat → Char
  | 0 => '0' | 1 => '1' | 2 => '2' | 3 => '3' | 4 => '4'
  | 5 => '5' | 6 => '6' | 7 => '7' | 8 => '8' | _ => '9'

def digitOfChar (c : Char) : Nat := c.toNat - 48

/-- Little-endian base-10 digits, structurally recursive on a fuel
argument so that the kernel can evaluate it. -/
def digitsRevAux : Nat → Nat → List Nat
  | 0, _ => []
  | fuel + 1, n => if n = 0 then [] else n % 10 :: digitsRevAux fuel (n / 10)

def natDigitsRev (n : Nat) : List Nat := digitsRevAux n n

/-- Decimal rendering of a natural number, as Python `str(n)`. -/
def natToChars (n : Nat) : List Char :=
  if n = 0 then ['0'] else ((natDigitsRev n).map charOfDigit).reverse

/-- `int(s)` restricted to plain digit strings (device ids as the
registry prints them). `none` models the `ValueError`. -/
def parseNatChars (l : List Char) : Option Nat :=
  if l ≠ [] ∧ l.all Char.isDigit then
    some (Nat.ofDigits 10 ((l.map digitOfChar).reverse))
  else none

/-- Zero-padding to two digits, as `datetime` prints months, days,
hours, minutes and seconds. -/
def pad2 (n : Nat) : List Char :=
  List.replicate (2 - (natToChars n).length) '0' ++ natToChars n

/-- Zero-padding to four digits, as `datetime` prints years. -/
def pad4 (n : Nat) : List Char :=
  List.replicate (4 - (natToChars n).length) '0' ++ natToChars n

/-- `str(t)` for a naive datetime: `YYYY-MM-DD HH:MM:SS`. -/
def PyDateTime.toChars (t : PyDateTime) : List Char :=
  pad4 t.year ++ '-' :: (pad2 t.month ++ '-' :: (pad2 t.day ++
    ' ' :: (pad2 t.hour ++ ':' :: (pad2 t.minute ++ ':' :: pad2 t.second))))

/-- Parse a fixed-width zero-padded numeric field of width `w`. -/
def parseFixed (w : Nat) (l : List Char) : Option Nat :=
  if l.length = w then parseNatChars l else none

/-- The date part of `datetime.fromisoformat`: `YYYY-MM-DD` with field
validation. -/
def parseDateChars (l : List Char) : Option (Nat × Nat × Nat) :=
  match splitChar '-' l with
  | [ys, ms, ds] =>
    match parseFixed 4 ys, parseFixed 2 ms, parseFixed 2 ds with
    | some y, some m, some d =>
      if 1 ≤ y ∧ 1 ≤ m ∧ m ≤ 12 ∧ 1 ≤ d ∧ d ≤ PyDateTime.daysInMonth y m then
        some (y, m, d)
      else none
    | _, _, _ => none
  | _ => none

/-- The time part of `datetime.fromisoformat`: `HH:MM:SS`. -/
def parseTimeChars (l : List Char) : Option (Nat × Nat × Nat) :=
  match splitChar ':' l with
  | [hs, ns, ss] =>
    match parseFixed 2 hs, parseFixed 2 ns, parseFixed 2 ss with
    | some h, some n, some s =>
      if h ≤ 23 ∧ n ≤ 59 ∧ s ≤ 59 then some (h, n, s) else none
    | _, _, _ => none
  | _ => none

/-- `datetime.fromisoformat` on the formats the registry round-trips:
a date, optionally followed by a space-separated time. -/
def fromIsoChars (l : List Char) : Option PyDateTime :=
  match splitChar ' ' l with
  | [dp] =>
    (parseDateChars dp).map (fun v => ⟨v.1, v.2.1, v.2.2, 0, 0, 0⟩)
  | [dp, tp] =>
    match parseDateChars dp, parseTimeChars tp with
    | some v, some w => some ⟨v.1, v.2.1, v.2.2, w.1, w.2.1, w.2.2⟩
    | _, _ => none
  | _ => none

/-- `create_issuance_id` (`services.py` lines 146-149):
`f"{device_id}-{production_starting_interval}"`. -/
def create_issuance_id (b : GCBundle) : List Char :=
  natToChars b.device_id ++ '-' :: b.production_starting_interval.toChars

/-- `issuance_id_to_device_and_interval` (`services.py` lines 152-165):
split on `-`, require at least four parts, parse the first as the device
id and the rest, re-joined on `-`, as an ISO datetime. -/
def issuance_id_to_device_and_interval (s : List Char) :
    Except String (Nat × PyDateTime) :=
  match splitChar '-' s with
  | [] => .error "Invalid issuance ID"
  | p0 :: rest =>
    if (p0 :: rest).length < 4 then .error "Invalid issuance ID"
    else
      match parseNatChars p0, fromIsoChars (joinChar '-' rest) with
      | some d, some t => .ok (d, t)
      | _, _ => .error "Invalid issuance ID"

example :
    issuance_id_to_device_and_interval
      (create_issuance_id
        { id := 1, issuance_id := [], account_id := 1, device_id := 42,
          certificate_bundle_status := .ACTIVE,
          certificate_bundle_id_range_start := 1,
          certificate_bundle_id_range_end := 100,
          bundle_quantity := 100, beneficiary := none,
          energy_source := "wind",
          production_starting_interval := ⟨2024, 1, 15, 10, 30, 0⟩,
          production_ending_interval := ⟨2024, 1, 15, 11, 30, 0⟩,
          is_deleted := false }) =
    .ok (42, ⟨2024, 1, 15, 10, 30, 0⟩) := by rfl

example : issuance_id_to_device_and_interval "abc".data =
    .error "Invalid issuance ID" := by rfl

/-! ### Round-trip lemmas for the issuance-ID codec. -/

theorem charOfDigit_isDigit (d : Nat) : (charOfDigit d).isDigit = true := by
  match d with
  | 0 | 1 | 2 | 3 | 4 | 5 | 6 | 7 | 8 => rfl
  | n + 9 => rfl

theorem digitOfChar_charOfDigit {d : Nat} (h : d < 10) :
    digitOfChar (charOfDigit d) = d := by
  interval_cases d <;> rfl

theorem digitsRevAux_lt_ten {fuel n d : Nat}
    (h : d ∈ digitsRevAux fuel n) : d < 10 := by
  induction fuel generalizing n with
  | zero => simp [digitsRevAux] at h
  | succ fuel ih =>
    by_cases hn : n = 0
    · simp [digitsRevAux, hn] at h
    · simp only [digitsRevAux, if_neg hn, List.mem_cons] at h
      rcases h with h | h
      · omega
      · exact ih h

theorem ofDigits_digitsRevAux {fuel n : Nat} (h : n ≤ fuel) :
    Nat.ofDigits 10 (digitsRevAux fuel n) = n := by
  induction fuel generalizing n with
  | zero =>
    have : n = 0 := Nat.le_zero.mp h
    simp [digitsRevAux, this, Nat.ofDigits_nil]
  | succ fuel ih =>
    by_cases hn : n = 0
    · simp [digitsRevAux, hn, Nat.ofDigits_nil]
    · have hdiv : n / 10 ≤ fuel := by
        have h1 : n / 10 < n := Nat.div_lt_self (Nat.pos_of_ne_zero hn) (by norm_num)
        omega
      simp only [digitsRevAux, if_neg hn, Nat.ofDigits_cons, ih hdiv]
      omega

theorem digitsRevAux_length {fuel n k : Nat} (hf : n ≤ fuel)
    (hk : n < 10 ^ k) : (digitsRevAux fuel n).length ≤ k := by
  induction fuel generalizing n k with
  | zero => simp [digitsRevAux]
  | succ fuel ih =>
    by_cases hn : n = 0
    · simp [digitsRevAux, hn]
    · have hkpos : 1 ≤ k := by
        by_contra hc
        have : k = 0 := by omega
        subst this
        simp at hk
        omega
      have hdivfuel : n / 10 ≤ fuel := by
        have h1 : n / 10 < n := Nat.div_lt_self (Nat.pos_of_ne_zero hn) (by norm_num)
        omega
      have hdivk : n / 10 < 10 ^ (k - 1) := by
        rw [Nat.div_lt_iff_lt_mul (by norm_num : 0 < 10)]
        calc n < 10 ^ k := hk
        _ = 10 ^ (k - 1) * 10 := by
            rw [← pow_succ]
            congr 1
            omega
      have := ih hdivfuel hdivk
      simp only [digitsRevAux, if_neg hn, List.length_cons]
      omega

theorem natDigitsRev_ne_nil {n : Nat} (hn : n ≠ 0) : natDigitsRev n ≠ [] := by
  unfold natDigitsRev
  match n with
  | m + 1 => simp [digitsRevAux]

theorem natToChars_all_digits (n : Nat) :
    ∀ c ∈ natToChars n, c.isDigit = true := by
  intro c hc
  unfold natToChars at hc
  by_cases hn : n = 0
  · simp [hn] at hc
    simp [hc]
  · simp only [if_neg hn, List.mem_reverse, List.mem_map] at hc
    obtain ⟨d, _, rfl⟩ := hc
    exact charOfDigit_isDigit d

theorem natToChars_ne_nil (n : Nat) : natToChars n ≠ [] := by
  unfold natToChars
  by_cases hn : n = 0
  · simp [hn]
  · simp only [if_neg hn]
    intro hnil
    have := natDigitsRev_ne_nil hn
    simp only [List.reverse_eq_nil_iff, List.map_eq_nil_iff] at hnil
    exact this hnil

theorem parseNatChars_natToChars (n : Nat) :
    parseNatChars (natToChars n) = some n := by
  unfold parseNatChars
  rw [if_pos]
  · congr 1
    by_cases hn : n = 0
    · simp [hn, natToChars, digitOfChar, Nat.ofDigits]
    · simp only [natToChars, if_neg hn, List.map_reverse, List.reverse_reverse,
        List.map_map]
      have hmap : (natDigitsRev n).map (digitOfChar ∘ charOfDigit) =
          (natDigitsRev n).map id :=
        List.map_congr_left
          (fun d hd => digitOfChar_charOfDigit (digitsRevAux_lt_ten hd))
      rw [hmap, List.map_id]
      exact ofDigits_digitsRevAux (le_refl n)
  · refine ⟨natToChars_ne_nil n, ?_⟩
    simp only [List.all_eq_true]
    intro c hc
    exact natToChars_all_digits n c hc

theorem ofDigits_replicate_zero (k : Nat) :
    Nat.ofDigits 10 (List.replicate k 0) = 0 := by
  induction k with
  | zero => simp [Nat.ofDigits_nil]
  | succ k ih => simp [List.replicate_succ, Nat.ofDigits_cons, ih]

theorem parseNatChars_pad (k n : Nat) :
    parseNatChars (List.replicate k '0' ++ natToChars n) = some n := by
  unfold parseNatChars
  rw [if_pos]
  · congr 1
    have hmap : (List.replicate k '0' ++ natToChars n).map digitOfChar =
        List.replicate k 0 ++ (natToChars n).map digitOfChar := by
      simp [List.map_replicate, digitOfChar]
    rw [hmap, List.reverse_append, List.reverse_replicate, Nat.ofDigits_append]
    have hbase : Nat.ofDigits 10 (((natToChars n).map digitOfChar).reverse) = n := by
      have := parseNatChars_natToChars n
      unfold parseNatChars at this
      rw [if_pos] at this
      · exact (Option.some.injEq _ _).mp this
      · refine ⟨natToChars_ne_nil n, ?_⟩
        simp only [List.all_eq_true]
        intro c hc
        exact natToChars_all_digits n c hc
    rw [hbase, ofDigits_replicate_zero]
    ring
  · constructor
    · simp [natToChars_ne_nil n]
    · simp only [List.all_append, List.all_eq_true, Bool.and_eq_true]
      constructor
      · intro c hc
        have : c = '0' := List.eq_of_mem_replicate hc
        simp [this]
      · intro c hc
        exact natToChars_all_digits n c hc

theorem natToChars_length_le {n k : Nat} (hk : n < 10 ^ k) (hkpos : 1 ≤ k) :
    (natToChars n).length ≤ k := by
  unfold natToChars
  by_cases hn : n = 0
  · simp [hn]; omega
  · simp only [if_neg hn, List.length_reverse, List.length_map]
    exact digitsRevAux_length (le_refl n) hk

theorem pad_length {n k : Nat} (hk : n < 10 ^ k) (hkpos : 1 ≤ k) :
    (List.replicate (k - (natToChars n).length) '0' ++ natToChars n).length = k := by
  have hle := natToChars_length_le hk hkpos
  simp only [List.length_append, List.length_replicate]
  omega

theorem pad2_length {n : Nat} (h : n < 100) : (pad2 n).length = 2 :=
  pad_length (by norm_num; omega) (by norm_num)

theorem pad4_length {n : Nat} (h : n < 10000) : (pad4 n).length = 4 :=
  pad_length (by norm_num; omega) (by norm_num)

theorem pad2_all_digits (n : Nat) : ∀ c ∈ pad2 n, c.isDigit = true := by
  intro c hc
  unfold pad2 at hc
  rw [List.mem_append] at hc
  rcases hc with hc | hc
  · have : c = '0' := List.eq_of_mem_replicate hc
    simp [this]
  · exact natToChars_all_digits n c hc

theorem pad4_all_digits (n : Nat) : ∀ c ∈ pad4 n, c.isDigit = true := by
  intro c hc
  unfold pad4 at hc
  rw [List.mem_append] at hc
  rcases hc with hc | hc
  · have : c = '0' := List.eq_of_mem_replicate hc
    simp [this]
  · exact natToChars_all_digits n c hc

theorem not_mem_of_all_digits {l : List Char} {ch : Char}
    (hall : ∀ c ∈ l, c.isDigit = true) (hch : ch.isDigit = false) : ch ∉ l := by
  intro hmem
  have := hall ch hmem
  rw [this] at hch
  exact absurd hch (by simp)

theorem parseFixed_pad2 {n : Nat} (h : n < 100) :
    parseFixed 2 (pad2 n) = some n := by
  unfold parseFixed
  rw [if_pos (pad2_length h)]
  exact parseNatChars_pad _ n

theorem parseFixed_pad4 {n : Nat} (h : n < 10000) :
    parseFixed 4 (pad4 n) = some n := by
  unfold parseFixed
  rw [if_pos (pad4_length h)]
  exact parseNatChars_pad _ n

theorem splitChar_ne_nil (c : Char) (l : List Char) : splitChar c l ≠ [] := by
  cases l with
  | nil => simp [splitChar]
  | cons x xs =>
    unfold splitChar
    by_cases hx : x = c
    · simp [hx]
    · simp only [if_neg hx]
      cases h : splitChar c xs <;> simp

theorem splitChar_no_sep {c : Char} {l : List Char} (h : c ∉ l) :
    splitChar c l = [l] := by
  induction l with
  | nil => rfl
  | cons x xs ih =>
    have hx : x ≠ c := fun he => h (he ▸ List.mem_cons_self x xs)
    have hxs : c ∉ xs := fun hm => h (List.mem_cons_of_mem x hm)
    unfold splitChar
    rw [if_neg hx, ih hxs]

theorem splitChar_append {c : Char} {A B : List Char} (h : c ∉ A) :
    splitChar c (A ++ c :: B) = A :: splitChar c B := by
  induction A with
  | nil => simp [splitChar]
  | cons x xs ih =>
    have hx : x ≠ c := fun he => h (he ▸ List.mem_cons_self x xs)
    have hxs : c ∉ xs := fun hm => h (List.mem_cons_of_mem x hm)
    simp only [List.cons_append]
    simp only [splitChar]
    rw [if_neg hx, ih hxs]

theorem joinChar_splitChar (c : Char) (l : List Char) :
    joinChar c (splitChar c l) = l := by
  induction l with
  | nil => rfl
  | cons x xs ih =>
    unfold splitChar
    by_cases hx : x = c
    · rw [if_pos hx]
      cases h : splitChar c xs with
      | nil => exact absurd h (splitChar_ne_nil c xs)
      | cons g gs =>
        rw [h] at ih
        simp only [joinChar, List.nil_append]
        rw [ih, hx]
    · rw [if_neg hx]
      cases h : splitChar c xs with
      | nil => exact absurd h (splitChar_ne_nil c xs)
      | cons g gs =>
        rw [h] at ih
        cases gs with
        | nil => simp only [joinChar] at ih ⊢; rw [ih]
        | cons g2 gs2 =>
          simp only [joinChar] at ih ⊢
          rw [List.cons_append, ih]

theorem daysInMonth_le (y m : Nat) : PyDateTime.daysInMonth y m ≤ 31 := by
  unfold PyDateTime.daysInMonth
  split_ifs <;> norm_num

theorem not_mem_pad2 {ch : Char} (hch : ch.isDigit = false) (n : Nat) :
    ch ∉ pad2 n :=
  not_mem_of_all_digits (pad2_all_digits n) hch

theorem not_mem_pad4 {ch : Char} (hch : ch.isDigit = false) (n : Nat) :
    ch ∉ pad4 n :=
  not_mem_of_all_digits (pad4_all_digits n) hch

theorem not_mem_dateChars {ch : Char} (hch : ch.isDigit = false)
    (hdash : ch ≠ '-') (y mo d : Nat) :
    ch ∉ pad4 y ++ '-' :: (pad2 mo ++ '-' :: pad2 d) := by
  intro hmem
  rcases List.mem_append.mp hmem with h | h
  · exact not_mem_pad4 hch y h
  · rcases List.mem_cons.mp h with h | h
    · exact hdash h
    · rcases List.mem_append.mp h with h | h
      · exact not_mem_pad2 hch mo h
      · rcases List.mem_cons.mp h with h | h
        · exact hdash h
        · exact not_mem_pad2 hch d h

theorem not_mem_timeChars {ch : Char} (hch : ch.isDigit = false)
    (hcolon : ch ≠ ':') (h mi s : Nat) :
    ch ∉ pad2 h ++ ':' :: (pad2 mi ++ ':' :: pad2 s) := by
  intro hmem
  rcases List.mem_append.mp hmem with hm | hm
  · exact not_mem_pad2 hch h hm
  · rcases List.mem_cons.mp hm with hm | hm
    · exact hcolon hm
    · rcases List.mem_append.mp hm with hm | hm
      · exact not_mem_pad2 hch mi hm
      · rcases List.mem_cons.mp hm with hm | hm
        · exact hcolon hm
        · exact not_mem_pad2 hch s hm

theorem parseDateChars_round {y mo d : Nat} (hy1 : 1 ≤ y) (hy2 : y ≤ 9999)
    (hm1 : 1 ≤ mo) (hm2 : mo ≤ 12) (hd1 : 1 ≤ d)
    (hd2 : d ≤ PyDateTime.daysInMonth y mo) :
    parseDateChars (pad4 y ++ '-' :: (pad2 mo ++ '-' :: pad2 d)) =
      some (y, mo, d) := by
  have hsplit :
      splitChar '-' (pad4 y ++ '-' :: (pad2 mo ++ '-' :: pad2 d)) =
        [pad4 y, pad2 mo, pad2 d] := by
    rw [splitChar_append (not_mem_pad4 (by decide) y),
      splitChar_append (not_mem_pad2 (by decide) mo),
      splitChar_no_sep (not_mem_pad2 (by decide) d)]
  have hdm := daysInMonth_le y mo
  simp only [parseDateChars, hsplit]
  rw [parseFixed_pad4 (by omega), parseFixed_pad2 (by omega),
    parseFixed_pad2 (by omega)]
  simp [hy1, hm1, hm2, hd1, hd2]

theorem parseTimeChars_round {h mi s : Nat} (hh : h ≤ 23) (hmi : mi ≤ 59)
    (hs : s ≤ 59) :
    parseTimeChars (pad2 h ++ ':' :: (pad2 mi ++ ':' :: pad2 s)) =
      some (h, mi, s) := by
  have hsplit :
      splitChar ':' (pad2 h ++ ':' :: (pad2 mi ++ ':' :: pad2 s)) =
        [pad2 h, pad2 mi, pad2 s] := by
    rw [splitChar_append (not_mem_pad2 (by decide) h),
      splitChar_append (not_mem_pad2 (by decide) mi),
      splitChar_no_sep (not_mem_pad2 (by decide) s)]
  simp only [parseTimeChars, hsplit]
  rw [parseFixed_pad2 (by omega), parseFixed_pad2 (by omega),
    parseFixed_pad2 (by omega)]
  simp [hh, hmi, hs]

theorem toChars_assoc (t : PyDateTime) :
    t.toChars =
      (pad4 t.year ++ '-' :: (pad2 t.month ++ '-' :: pad2 t.day)) ++
        ' ' :: (pad2 t.hour ++ ':' :: (pad2 t.minute ++ ':' :: pad2 t.second)) := by
  simp [PyDateTime.toChars, List.append_assoc]

theorem fromIsoChars_toChars {t : PyDateTime} (h : t.Valid) :
    fromIsoChars t.toChars = some t := by
  obtain ⟨hy1, hy2, hm1, hm2, hd1, hd2, hh, hmi, hs⟩ := h
  have hsplit :
      splitChar ' ' t.toChars =
        [pad4 t.year ++ '-' :: (pad2 t.month ++ '-' :: pad2 t.day),
         pad2 t.hour ++ ':' :: (pad2 t.minute ++ ':' :: pad2 t.second)] := by
    rw [toChars_assoc,
      splitChar_append (not_mem_dateChars (by decide) (by decide) _ _ _),
      splitChar_no_sep (not_mem_timeChars (by decide) (by decide) _ _ _)]
  simp only [fromIsoChars, hsplit,
    parseDateChars_round hy1 hy2 hm1 hm2 hd1 hd2,
    parseTimeChars_round hh hmi hs]

theorem not_mem_dash_tail {d h mi s : Nat} :
    ('-' : Char) ∉
      pad2 d ++ ' ' :: (pad2 h ++ ':' :: (pad2 mi ++ ':' :: pad2 s)) := by
  intro hmem
  rcases List.mem_append.mp hmem with hm | hm
  · exact not_mem_pad2 (by decide) d hm
  · rcases List.mem_cons.mp hm with hm | hm
    · exact absurd hm (by decide)
    · exact not_mem_timeChars (by decide) (by decide) h mi s hm

theorem splitChar_toChars (t : PyDateTime) :
    splitChar '-' t.toChars =
      [pad4 t.year, pad2 t.month,
        pad2 t.day ++ ' ' :: (pad2 t.hour ++ ':' :: (pad2 t.minute ++ ':' :: pad2 t.second))] := by
  unfold PyDateTime.toChars
  rw [splitChar_append (not_mem_pad4 (by decide) t.year),
    splitChar_append (not_mem_pad2 (by decide) t.month),
    splitChar_no_sep not_mem_dash_tail]

theorem decode_create_issuance_id {b : GCBundle}
    (h : b.production_starting_interval.Valid) :
    issuance_id_to_device_and_interval (create_issuance_id b) =
      .ok (b.device_id, b.production_starting_interval) := by
  have hsplit : splitChar '-' (create_issuance_id b) =
      natToChars b.device_id :: splitChar '-' b.production_starting_interval.toChars := by
    unfold create_issuance_id
    exact splitChar_append
      (not_mem_of_all_digits (natToChars_all_digits b.device_id) (by decide))
  have hjoin : joinChar '-'
      [pad4 b.production_starting_interval.year,
       pad2 b.production_starting_interval.month,
       pad2 b.production_starting_interval.day ++ ' ' ::
         (pad2 b.production_starting_interval.hour ++ ':' ::
           (pad2 b.production_starting_interval.minute ++ ':' ::
             pad2 b.production_starting_interval.second))] =
      b.production_starting_interval.toChars := rfl
  simp only [issuance_id_to_device_and_interval, hsplit, splitChar_toChars,
    List.length_cons, List.length_nil]
  norm_num
  rw [parseNatChars_natToChars, hjoin, fromIsoChars_toChars h]

theorem decode_malformed (s p0 : List Char) (rest : List (List Char))
    (hsplit : splitChar '-' s = p0 :: rest)
    (hbad : (p0 :: rest).length < 4 ∨ parseNatChars p0 = none ∨
      fromIsoChars (joinChar '-' rest) = none) :
    issuance_id_to_device_and_interval s = .error "Invalid issuance ID" := by
  simp only [issuance_id_to_device_and_interval, hsplit]
  rcases hbad with hb | hb | hb
  · rw [if_pos (by simpa using hb)]
  · split_ifs with hlen
    · rfl
    · rw [hb]
  · split_ifs with hlen
    · rfl
    · rw [hb]
      cases parseNatChars p0 <;> rfl

/-- C8.  `issuance_id_to_device_and_interval` inverts `create_issuance_id`
on every bundle whose production starting interval is a valid timestamp
(device ids are server-assigned naturals, printed in decimal); and an
issuance ID that splits into fewer than four dash-separated parts, or
whose first part is not a decimal integer, or whose remainder does not
parse as an ISO datetime, is rejected with the invalid-issuance-ID
error. -/
theorem C8_issuance_id_codec :
    (∀ b : GCBundle, b.production_starting_interval.Valid →
      issuance_id_to_device_and_interval (create_issuance_id b) =
        .ok (b.device_id, b.production_starting_interval)) ∧
    (∀ (s p0 : List Char) (rest : List (List Char)),
      splitChar '-' s = p0 :: rest →
      ((p0 :: rest).length < 4 ∨ parseNatChars p0 = none ∨
        fromIsoChars (joinChar '-' rest) = none) →
      issuance_id_to_device_and_interval s = .error "Invalid issuance ID") :=
  ⟨fun _ h => decode_create_issuance_id h, decode_malformed⟩

def c8Bundle : GCBundle :=
  { id := 7, issuance_id := [], account_id := 3, device_id := 42,
    certificate_bundle_status := .ACTIVE,
    certificate_bundle_id_range_start := 1,
    certificate_bundle_id_range_end := 100,
    bundle_quantity := 100, beneficiary := none,
    energy_source := "wind",
    production_starting_interval := ⟨2024, 2, 29, 13, 30, 0⟩,
    production_ending_interval := ⟨2024, 2, 29, 14, 30, 0⟩,
    is_deleted := false }

/-- Witness for C8 at a concrete bundle and a concrete malformed ID. -/
theorem C8_issuance_id_codec_witness :
    issuance_id_to_device_and_interval (create_issuance_id c8Bundle) =
      .ok (42, ⟨2024, 2, 29, 13, 30, 0⟩) ∧
    issuance_id_to_device_and_interval "1-2".data =
      .error "Invalid issuance ID" :=
  ⟨C8_issuance_id_codec.1 c8Bundle (by decide),
   C8_issuance_id_codec.2 "1-2".data ['1'] [['2']] (by rfl)
     (Or.inl (by decide))⟩

/-! ### CQRS coordinator (`gc_registry/core/database/cqrs.py`).

A session is a committed table plus the rows flushed inside the open
transaction; `flush` stages rows, `rollback` discards the open
transaction, `commit` makes it durable.  Fault injection for the two
flush calls stands for the database raising inside `session.flush()`.
The Python code indexes `entities[0]` for the `UserAccountLink` check,
so the modelled functions are only meaningful for non-empty entity
lists, as at every call site. -/

/-- A row as the coordinator sees it: identity, SQLModel class name,
attribute assignment and the soft-delete flag. -/
structure EntityRec where
  id : Nat
  name : String
  attrs : List (String × String)
  is_deleted : Bool
deriving DecidableEq, Repr

structure DbStore where
  committed : List EntityRec
  flushed : List EntityRec
deriving DecidableEq, Repr

inductive EventTypes where
  | CREATE
  | UPDATE
  | DELETE
deriving DecidableEq, Repr

/-- An event-stream entry (`gc_registry/core/models/base.py`); the
before/after payloads are not tracked by any checked property. -/
structure EventRec where
  entity_id : Nat
  entity_name : String
  event_type : EventTypes
deriving DecidableEq, Repr

structure CqrsState where
  write : DbStore
  read : DbStore
  events : List EventRec
deriving DecidableEq, Repr

/-- Fault injection: whether `flush()` raises on the write store or on
the read store during the call under scrutiny. -/
structure Faults where
  writeFlushFails : Bool
  readFlushFails : Bool
deriving DecidableEq, Repr

def DbStore.rollback (s : DbStore) : DbStore := { s with flushed := [] }

/-- `commit` applies the open transaction: rows merge by id and
otherwise append. -/
def DbStore.upsert (rows : List EntityRec) (e : EntityRec) : List EntityRec :=
  if rows.any (fun r => r.id = e.id && r.name = e.name) then
    rows.map (fun r => if r.id = e.id && r.name = e.name then e else r)
  else rows ++ [e]

def DbStore.commit (s : DbStore) : DbStore :=
  { committed := s.flushed.foldl DbStore.upsert s.committed, flushed := [] }

def mkCreateEvent (e : EntityRec) : EventRec :=
  { entity_id := e.id, entity_name := e.name, event_type := .CREATE }

def mkUpdateEvent (e : EntityRec) : EventRec :=
  { entity_id := e.id, entity_name := e.name, event_type := .UPDATE }

def mkDeleteEvent (e : EntityRec) : EventRec :=
  { entity_id := e.id, entity_name := e.name, event_type := .DELETE }

/-- `write_to_database` (`cqrs.py` lines 15-72): flush to the write
store (on failure roll back the write session and re-raise); flush the
merged rows to the read store (on failure roll back both and re-raise);
append one CREATE event per entity unless the first entity is a
`UserAccountLink`; commit both stores. -/
def write_to_database (entities : List EntityRec) (f : Faults)
    (st : CqrsState) : CqrsState × Except String (List EntityRec) :=
  if f.writeFlushFails then
    ({ st with write := st.write.rollback }, .error "write flush failed")
  else
    let st1 : CqrsState :=
      { st with write := { st.write with flushed := st.write.flushed ++ entities } }
    if f.readFlushFails then
      ({ st1 with write := st1.write.rollback, read := st1.read.rollback },
        .error "read flush failed")
    else
      let st2 : CqrsState :=
        { st1 with read := { st1.read with flushed := st1.read.flushed ++ entities } }
      let evs : List EventRec :=
        match entities with
        | [] => []
        | e :: _ =>
          if e.name = "UserAccountLink" then [] else entities.map mkCreateEvent
      let st3 : CqrsState := { st2 with events := st2.events ++ evs }
      ({ st3 with write := st3.write.commit, read := st3.read.commit },
        .ok entities)

/-- `entity.sqlmodel_update(update_data)`: key-wise attribute override. -/
def applyUpdate (e : EntityRec) (upd : List (String × String)) : EntityRec :=
  { e with attrs :=
      e.attrs.map (fun kv =>
        match upd.find? (fun uv => uv.1 = kv.1) with
        | some uv => uv
        | none => kv) ++
      upd.filter (fun uv => ¬ e.attrs.any (fun kv => kv.1 = uv.1)) }

/-- `update_database_entity` (`cqrs.py` lines 75-133): apply the delta,
flush on the write store (on failure roll back the write session and
return `None` — the exception is swallowed); flush on the read store (on
failure roll back both and return `None`); append one UPDATE event;
commit both stores and return the updated entity. -/
def update_database_entity (entity : EntityRec) (upd : List (String × String))
    (f : Faults) (st : CqrsState) :
    CqrsState × Except String (Option EntityRec) :=
  let newEntity := applyUpdate entity upd
  if f.writeFlushFails then
    ({ st with write := st.write.rollback }, .ok none)
  else
    let st1 : CqrsState :=
      { st with write := { st.write with flushed := st.write.flushed ++ [newEntity] } }
    if f.readFlushFails then
      ({ st1 with write := st1.write.rollback, read := st1.read.rollback },
        .ok none)
    else
      let st2 : CqrsState :=
        { st1 with read := { st1.read with flushed := st1.read.flushed ++ [newEntity] } }
      let st3 : CqrsState := { st2 with events := st2.events ++ [mkUpdateEvent newEntity] }
      ({ st3 with write := st3.write.commit, read := st3.read.commit },
        .ok (some newEntity))

/-- `delete_database_entities` (`cqrs.py` lines 136-188): set
`is_deleted` on every entity, flush on the write store (on failure roll
back the write session and return `None`); flush on the read store (on
failure roll back both and return `None`); append one DELETE event per
entity; commit both stores. -/
def delete_database_entities (entities : List EntityRec) (f : Faults)
    (st : CqrsState) : CqrsState × Except String (Option (List EntityRec)) :=
  let deleted := entities.map (fun e => { e with is_deleted := true })
  if f.writeFlushFails then
    ({ st with write := st.write.rollback }, .ok none)
  else
    let st1 : CqrsState :=
      { st with write := { st.write with flushed := st.write.flushed ++ deleted } }
    if f.readFlushFails then
      ({ st1 with write := st1.write.rollback, read := st1.read.rollback },
        .ok none)
    else
      let st2 : CqrsState :=
        { st1 with read := { st1.read with flushed := st1.read.flushed ++ deleted } }
      let st3 : CqrsState :=
        { st2 with events := st2.events ++ deleted.map mkDeleteEvent }
      ({ st3 with write := st3.write.commit, read := st3.read.commit },
        .ok (some deleted))

def emptyCqrs : CqrsState := ⟨⟨[], []⟩, ⟨[], []⟩, []⟩

def sampleEntity : EntityRec :=
  ⟨5, "GranularCertificateBundle", [("account_id", "1")], false⟩

def sampleLink : EntityRec :=
  ⟨9, "UserAccountLink", [("user_id", "1"), ("account_id", "2")], false⟩

/-- Counterexample for C2: with a failing write flush,
`update_database_entity` and `delete_database_entities` do not raise —
they return `None` (`.ok none`), so "an error is raised to the caller"
is false for two of the three coordinator entry points. -/
theorem C2_error_swallowed_counterexample :
    (update_database_entity sampleEntity [("account_id", "2")] ⟨true, false⟩
      emptyCqrs).2 = .ok none ∧
    (delete_database_entities [sampleEntity] ⟨true, false⟩
      emptyCqrs).2 = .ok none :=
  ⟨rfl, rfl⟩

/-- C2 as amended: when the write-store flush or the read-store flush
fails, every open transaction that was touched is rolled back (a
write-flush failure rolls back the write session, the read session not
having been touched yet; a read-flush failure rolls back both), no event
is appended, and the committed contents of both stores are unchanged;
`write_to_database` re-raises the error, while `update_database_entity`
and `delete_database_entities` swallow it and return `None`. -/
theorem C2_flush_failure_rollback (entities : List EntityRec)
    (entity : EntityRec) (upd : List (String × String)) (f : Faults)
    (st : CqrsState)
    (hf : f.writeFlushFails = true ∨ f.readFlushFails = true) :
    ((write_to_database entities f st).1.write.committed = st.write.committed ∧
     (write_to_database entities f st).1.read.committed = st.read.committed ∧
     (write_to_database entities f st).1.events = st.events ∧
     exceptIsOk (write_to_database entities f st).2 = false) ∧
    ((update_database_entity entity upd f st).1.write.committed = st.write.committed ∧
     (update_database_entity entity upd f st).1.read.committed = st.read.committed ∧
     (update_database_entity entity upd f st).1.events = st.events ∧
     (update_database_entity entity upd f st).2 = .ok none) ∧
    ((delete_database_entities entities f st).1.write.committed = st.write.committed ∧
     (delete_database_entities entities f st).1.read.committed = st.read.committed ∧
     (delete_database_entities entities f st).1.events = st.events ∧
     (delete_database_entities entities f st).2 = .ok none) := by
  unfold write_to_database update_database_entity delete_database_entities
  rcases hf with hf | hf
  · simp [hf, DbStore.rollback, exceptIsOk]
  · cases hw : f.writeFlushFails <;>
      simp [hf, hw, DbStore.rollback, exceptIsOk]

/-- Witness for C2 (amended), applied at a failing write flush on a
concrete state. -/
theorem C2_flush_failure_rollback_witness :
    (update_database_entity sampleEntity [("account_id", "2")] ⟨true, false⟩
      emptyCqrs).1.write.committed = emptyCqrs.write.committed :=
  (C2_flush_failure_rollback [sampleEntity] sampleEntity [("account_id", "2")]
    ⟨true, false⟩ emptyCqrs (Or.inl rfl)).2.1.1

/-- Counterexample for C3: a successful `write_to_database` of a
`UserAccountLink` entity appends no CREATE event at all. -/
theorem C3_user_account_link_counterexample :
    exceptIsOk (write_to_database [sampleLink] ⟨false, false⟩ emptyCqrs).2 = true ∧
    (write_to_database [sampleLink] ⟨false, false⟩ emptyCqrs).1.events = [] :=
  ⟨rfl, rfl⟩

/-- C3 as amended: a successful `write_to_database` appends exactly one
CREATE event per entity written — except when the first entity is a
`UserAccountLink` instance, in which case no event is appended. -/
theorem C3_create_event_per_entity (e : EntityRec) (es : List EntityRec)
    (f : Faults) (hw : f.writeFlushFails = false)
    (hr : f.readFlushFails = false) (st : CqrsState) :
    exceptIsOk (write_to_database (e :: es) f st).2 = true ∧
    (write_to_database (e :: es) f st).1.events =
      st.events ++
        (if e.name = "UserAccountLink" then []
         else (e :: es).map mkCreateEvent) := by
  unfold write_to_database
  simp [hw, hr, exceptIsOk]

/-- Witness for C3 (amended): one CREATE event for a concrete ordinary
entity. -/
theorem C3_create_event_per_entity_witness :
    (write_to_database [sampleEntity] ⟨false, false⟩ emptyCqrs).1.events =
      [⟨5, "GranularCertificateBundle", .CREATE⟩] := by
  have h := C3_create_event_per_entity sampleEntity [] ⟨false, false⟩ rfl rfl emptyCqrs
  simpa [emptyCqrs, sampleEntity, mkCreateEvent] using h.2

/-! ### Action services (`gc_registry/certificate/services.py`).

Accounts enter only through `Account.exists` (a primary-key lookup), so
the account table is its list of ids.  `AccountWhitelistLink` rows are
carried in full.  Each `certificate.update(...)` call commits an
id-matched field update, so a service mutation maps the bundle table in
place; an exception propagating from a service returns the table as it
stood at that moment. -/

/-- `AccountWhitelistLink` (`gc_registry/account/models.py`). -/
structure AccountWhitelistLink where
  source_account_id : Nat
  target_account_id : Nat
  is_deleted : Bool
deriving DecidableEq, Repr

/-- The selector and target fields of `GranularCertificateTransfer`
(`gc_registry/certificate/schemas.py`). -/
structure TransferAction where
  source_id : Nat
  target_id : Nat
  granular_certificate_bundle_ids : List Nat
  certificate_quantity : Option Int
  certificate_bundle_percentage : Option Rat
deriving DecidableEq, Repr

/-- The selector and beneficiary fields of `GranularCertificateCancel`. -/
structure CancelAction where
  source_id : Nat
  granular_certificate_bundle_ids : List Nat
  certificate_quantity : Option Int
  certificate_bundle_percentage : Option Rat
  beneficiary : Option String
deriving DecidableEq, Repr

/-- Python `int(...)` on a float holding an exact fraction: truncation
toward zero. -/
def pyInt (q : Rat) : Int := q.num / (q.den : Int)

/-- `get_certificate_bundles_by_id` (`services.py` lines 43-61): select
bundles whose id is in the list (soft-deleted rows are not excluded
here). -/
def get_certificate_bundles_by_id (ids : List Nat) (bundles : List GCBundle) :
    List GCBundle :=
  bundles.filter (fun b => b.id ∈ ids)

/-- One `certificate.update(...)` step: the row with the entity's id
receives the field update in both stores. -/
def updateMatching (f : GCBundle → GCBundle) (st : RegState) (b : GCBundle) :
    RegState :=
  { st with bundles := st.bundles.map (fun x => if x.id = b.id then f x else x) }

/-- The loop of `apply_bundle_quantity_or_percentage` (`services.py`
lines 610-630): with `certificate_quantity` set, a bundle at most that
size passes through unsplit; otherwise the bundle is split at the
precomputed size and child 1 is collected. -/
def applyBQPLoop (qty : Option Int) (pairs : List (GCBundle × Int))
    (st : RegState) (acc : List GCBundle) :
    RegState × Except String (List GCBundle) :=
  match pairs with
  | [] => (st, .ok acc)
  | (b, size) :: rest =>
    match qty with
    | some q =>
      if b.bundle_quantity ≤ q then applyBQPLoop qty rest st (acc ++ [b])
      else
        match split_certificate_bundle b size st with
        | (st1, .ok children) => applyBQPLoop qty rest st1 (acc ++ [children.1])
        | (st1, .error m) => (st1, .error m)
    | none =>
      match split_certificate_bundle b size st with
      | (st1, .ok children) => applyBQPLoop qty rest st1 (acc ++ [children.1])
      | (st1, .error m) => (st1, .error m)

/-- `apply_bundle_quantity_or_percentage` (`services.py` lines 554-631):
no selector passes the query result through; `certificate_quantity`
yields one candidate size per bundle equal to the quantity;
`certificate_bundle_percentage` yields `int(percentage * quantity)` per
bundle — and in the percentage branch every bundle is split, with no
size check. -/
def apply_bundle_quantity_or_percentage (fromQuery : List GCBundle)
    (qty : Option Int) (pct : Option Rat) (st : RegState) :
    RegState × Except String (List GCBundle) :=
  if qty = none ∧ pct = none then (st, .ok fromQuery)
  else
    let sizes : List Int :=
      match qty, pct with
      | some q, _ => fromQuery.map (fun _ => q)
      | none, some p => fromQuery.map (fun b => pyInt (p * (b.bundle_quantity : Rat)))
      | none, none => []
    applyBQPLoop qty (fromQuery.zip sizes) st []

/-- `transfer_certificates` (`services.py` lines 739-809): the target
account must exist; the target must have a live whitelist edge from the
source; the targeted bundles must exist and all be ACTIVE; then each
bundle headed for transfer has `account_id` set to the target. -/
def transfer_certificates (accounts : List Nat)
    (whitelist : List AccountWhitelistLink) (a : TransferAction)
    (st : RegState) : RegState × Except String Unit :=
  if a.target_id ∈ accounts then
    let account_whitelist : List Nat :=
      (whitelist.filter (fun l =>
        l.target_account_id = a.target_id && l.is_deleted = false)).map
        (fun l => l.source_account_id)
    if a.source_id ∈ account_whitelist then
      let fromQuery :=
        get_certificate_bundles_by_id a.granular_certificate_bundle_ids st.bundles
      if fromQuery = [] then
        (st, .error "No certificates found to transfer with given query parameters.")
      else if fromQuery.any (fun c => c.certificate_bundle_status ≠ .ACTIVE) then
        (st, .error "Can only transfer active certificates")
      else
        match apply_bundle_quantity_or_percentage fromQuery
          a.certificate_quantity a.certificate_bundle_percentage st with
        | (st1, .ok toTransfer) =>
          (toTransfer.foldl
            (updateMatching (fun x => { x with account_id := a.target_id })) st1,
            .ok ())
        | (st1, .error m) => (st1, .error m)
    else
      (st, .error "Target account has not whitelisted the source account for transfer.")
  else
    (st, .error "Target account does not exist")

/-- `cancel_certificates` (`services.py` lines 812-864): the targeted
bundles must exist and all be ACTIVE or RESERVED; then each bundle headed
for cancellation has its status set to CANCELLED and its beneficiary set
to the request's beneficiary. -/
def cancel_certificates (a : CancelAction) (st : RegState) :
    RegState × Except String Unit :=
  let fromQuery :=
    get_certificate_bundles_by_id a.granular_certificate_bundle_ids st.bundles
  if fromQuery = [] then
    (st, .error "No certificates found to cancel with given query parameters.")
  else if fromQuery.any (fun c =>
      c.certificate_bundle_status ≠ .ACTIVE &&
      c.certificate_bundle_status ≠ .RESERVED) then
    (st, .error "Certificates must be in ACTIVE or RESERVED status to cancel")
  else
    match apply_bundle_quantity_or_percentage fromQuery
      a.certificate_quantity a.certificate_bundle_percentage st with
    | (st1, .ok toCancel) =>
      (toCancel.foldl
        (updateMatching (fun x =>
          { x with certificate_bundle_status := .CANCELLED,
                   beneficiary := a.beneficiary })) st1,
        .ok ())
    | (st1, .error m) => (st1, .error m)

/-- The `/certificate/cancel` route body
(`gc_registry/certificate/routes.py` lines 347-370): when no beneficiary
is given, it is defaulted to the requesting account-holder's user name
before `cancel_certificates` runs. -/
def certificate_bundle_cancellation (userName : String) (a : CancelAction)
    (st : RegState) : RegState × Except String Unit :=
  let a1 := if a.beneficiary = none then { a with beneficiary := some userName } else a
  cancel_certificates a1 st

theorem foldl_updateMatching (f : GCBundle → GCBundle)
    (hidem : ∀ x, f (f x) = f x)
    (q : List GCBundle) (st : RegState) :
    (q.foldl (updateMatching f) st).bundles =
      st.bundles.map
        (fun x => if q.any (fun b => x.id = b.id) then f x else x) := by
  induction q generalizing st with
  | nil => simp
  | cons b rest ih =>
    rw [List.foldl_cons, ih]
    simp only [updateMatching, List.map_map]
    apply List.map_congr_left
    intro x _
    simp only [Function.comp_apply, List.any_cons]
    by_cases h1 : x.id = b.id
    · rw [if_pos h1]
      by_cases h2 : rest.any (fun c => (f x).id = c.id) = true
      · rw [if_pos h2, hidem]
        simp [h1]
      · rw [if_neg h2]
        simp [h1]
    · rw [if_neg h1]
      by_cases h2 : rest.any (fun c => x.id = c.id) = true
      · rw [if_pos h2, if_pos]
        simp [h2]
      · rw [if_neg h2, if_neg]
        simp [h1, h2]

theorem applyBQP_no_selector (l : List GCBundle) (st : RegState) :
    apply_bundle_quantity_or_percentage l none none st = (st, .ok l) := by
  simp [apply_bundle_quantity_or_percentage]

def c1Parent : GCBundle :=
  { id := 1, issuance_id := [], account_id := 1, device_id := 1,
    certificate_bundle_status := .ACTIVE,
    certificate_bundle_id_range_start := 1,
    certificate_bundle_id_range_end := 100,
    bundle_quantity := 100, beneficiary := none,
    energy_source := "wind",
    production_starting_interval := ⟨2024, 1, 1, 0, 0, 0⟩,
    production_ending_interval := ⟨2024, 1, 1, 1, 0, 0⟩,
    is_deleted := false }

/-- C1, evaluated at the failing input: a parent covering `[1, 100]`
with quantity 100, split at `k = 25`.  The code returns child 1 covering
`[1, 26]` (26 ids) with quantity 25 and child 2 covering `[27, 100]`
(74 ids) with quantity 75 — child 1 does not end at
`range_start + k - 1 = 25`, and neither child satisfies
`bundle_quantity = range_end - range_start + 1`. -/
theorem C1_split_offbyone_eval :
    ((split_certificate_bundle c1Parent 25 ⟨[c1Parent], 2⟩).2.toOption.map
      (fun p =>
        (p.1.certificate_bundle_id_range_start,
         p.1.certificate_bundle_id_range_end,
         p.1.bundle_quantity,
         p.2.certificate_bundle_id_range_start,
         p.2.certificate_bundle_id_range_end,
         p.2.bundle_quantity))) =
      some (1, 26, 25, 27, 100, 75) ∧
    (26 : Int) ≠ 1 + 25 - 1 ∧
    (25 : Int) ≠ 26 - 1 + 1 ∧
    (75 : Int) ≠ 100 - 27 + 1 := by
  refine ⟨by rfl, by decide, by decide, by decide⟩

/-- C10.  The guard of `split_certificate_bundle` raises exactly when
`size_to_split = 0` or `size_to_split ≥ bundle_quantity`; a strictly
negative `size_to_split` on a positively-sized parent passes the guard
and yields a first child whose `bundle_quantity` is that negative
size. -/
theorem C10_split_guard (b : GCBundle) (k : Int) (st : RegState) :
    (exceptIsOk (split_certificate_bundle b k st).2 = false ↔
      k = 0 ∨ b.bundle_quantity ≤ k) ∧
    (0 < b.bundle_quantity → k < 0 →
      ∃ c1 c2, (split_certificate_bundle b k st).2 = .ok (c1, c2) ∧
        c1.bundle_quantity = k ∧ c1.bundle_quantity < 0) := by
  constructor
  · unfold split_certificate_bundle
    split_ifs with h0 hge
    · simp [exceptIsOk, h0]
    · simp [exceptIsOk, hge]
    · simp [exceptIsOk, h0, hge]
  · intro hq hk
    unfold split_certificate_bundle
    rw [if_neg (by omega), if_neg (by omega)]
    exact ⟨_, _, rfl, rfl, hk⟩

/-- Witness for C10: the guard blocks a zero split, and a split of −5
from a 100-certificate parent is accepted and produces a child of
quantity −5. -/
theorem C10_split_guard_witness :
    exceptIsOk (split_certificate_bundle c1Parent 0 ⟨[c1Parent], 2⟩).2 = false ∧
    ((split_certificate_bundle c1Parent (-5) ⟨[c1Parent], 2⟩).2.toOption.map
      (fun p => p.1.bundle_quantity)) = some (-5) := by
  constructor
  · exact (C10_split_guard c1Parent 0 ⟨[c1Parent], 2⟩).1.mpr (Or.inl rfl)
  · obtain ⟨c1, c2, he, hq, _⟩ :=
      (C10_split_guard c1Parent (-5) ⟨[c1Parent], 2⟩).2 (by norm_num [c1Parent])
        (by norm_num)
    rw [he]
    simp [Except.toOption, hq]

theorem mem_whitelist_map_iff (wl : List AccountWhitelistLink) (src tgt : Nat) :
    (src ∈ (wl.filter (fun l =>
        l.target_account_id = tgt && l.is_deleted = false)).map
        (fun l => l.source_account_id)) ↔
      ∃ l ∈ wl, l.source_account_id = src ∧ l.target_account_id = tgt ∧
        l.is_deleted = false := by
  simp only [List.mem_map, List.mem_filter, Bool.and_eq_true, decide_eq_true_eq]
  constructor
  · rintro ⟨l, ⟨hl, ht, hd⟩, hs⟩
    exact ⟨l, hl, hs, ht, hd⟩
  · rintro ⟨l, hl, hs, ht, hd⟩
    exact ⟨l, ⟨hl, ht, hd⟩, hs⟩

/-- C4.  `transfer_certificates` raises and leaves every bundle
unchanged unless the target account exists, a non-deleted whitelist edge
from the request's source to its target exists, and every targeted
bundle is ACTIVE; and when a full-bundle transfer succeeds, every
targeted bundle's `account_id` has become the target account. -/
theorem C4_transfer_preconditions (accounts : List Nat)
    (wl : List AccountWhitelistLink) (a : TransferAction) (st : RegState) :
    (¬ (a.target_id ∈ accounts ∧
        (∃ l ∈ wl, l.source_account_id = a.source_id ∧
          l.target_account_id = a.target_id ∧ l.is_deleted = false) ∧
        ∀ c ∈ get_certificate_bundles_by_id
          a.granular_certificate_bundle_ids st.bundles,
          c.certificate_bundle_status = .ACTIVE) →
      (transfer_certificates accounts wl a st).1 = st ∧
      exceptIsOk (transfer_certificates accounts wl a st).2 = false) ∧
    (a.certificate_quantity = none → a.certificate_bundle_percentage = none →
      ∀ st1, transfer_certificates accounts wl a st = (st1, .ok ()) →
        ∀ b ∈ st1.bundles, b.id ∈ a.granular_certificate_bundle_ids →
          b.account_id = a.target_id) := by
  constructor
  · intro hpre
    simp only [transfer_certificates]
    by_cases h1 : a.target_id ∈ accounts
    · rw [if_pos h1]
      by_cases h2 : a.source_id ∈ (wl.filter (fun l =>
          l.target_account_id = a.target_id && l.is_deleted = false)).map
          (fun l => l.source_account_id)
      · rw [if_pos h2]
        have h3 : ¬ ∀ c ∈ get_certificate_bundles_by_id
            a.granular_certificate_bundle_ids st.bundles,
            c.certificate_bundle_status = .ACTIVE :=
          fun hall => hpre ⟨h1, (mem_whitelist_map_iff wl _ _).mp h2, hall⟩
        push_neg at h3
        obtain ⟨c, hc, hcs⟩ := h3
        have hne : get_certificate_bundles_by_id
            a.granular_certificate_bundle_ids st.bundles ≠ [] := by
          intro h
          rw [h] at hc
          simp at hc
        rw [if_neg hne]
        have hany : (get_certificate_bundles_by_id
            a.granular_certificate_bundle_ids st.bundles).any
            (fun c => c.certificate_bundle_status ≠ .ACTIVE) = true := by
          rw [List.any_eq_true]
          exact ⟨c, hc, by simp [hcs]⟩
        rw [if_pos hany]
        exact ⟨rfl, rfl⟩
      · rw [if_neg h2]
        exact ⟨rfl, rfl⟩
    · rw [if_neg h1]
      exact ⟨rfl, rfl⟩
  · intro hq hp st1 heval
    simp only [transfer_certificates] at heval
    split_ifs at heval <;> try simp at heval
    rw [hq, hp, applyBQP_no_selector] at heval
    have hst := congrArg Prod.fst heval
    simp only at hst
    subst hst
    rw [foldl_updateMatching (fun x => { x with account_id := a.target_id })
      (fun x => rfl)]
    intro b hb hbid
    obtain ⟨x0, hx0, hgx⟩ := List.mem_map.mp hb
    by_cases hcond : ((get_certificate_bundles_by_id
        a.granular_certificate_bundle_ids st.bundles).any
        (fun c => x0.id = c.id)) = true
    · rw [if_pos hcond] at hgx
      rw [← hgx]
    · rw [if_neg hcond] at hgx
      exfalso
      apply hcond
      rw [List.any_eq_true]
      refine ⟨x0, ?_, by simp⟩
      unfold get_certificate_bundles_by_id
      rw [List.mem_filter]
      refine ⟨hx0, ?_⟩
      rw [hgx]
      simpa using hbid

theorem cancel_certificates_status_guard (a : CancelAction) (st : RegState)
    (hex : ∃ c ∈ get_certificate_bundles_by_id
        a.granular_certificate_bundle_ids st.bundles,
      c.certificate_bundle_status ≠ .ACTIVE ∧
      c.certificate_bundle_status ≠ .RESERVED) :
    cancel_certificates a st =
      (st, .error "Certificates must be in ACTIVE or RESERVED status to cancel") := by
  obtain ⟨c, hc, hc1, hc2⟩ := hex
  have hne : get_certificate_bundles_by_id
      a.granular_certificate_bundle_ids st.bundles ≠ [] := by
    intro h
    rw [h] at hc
    simp at hc
  have hany : (get_certificate_bundles_by_id
      a.granular_certificate_bundle_ids st.bundles).any
      (fun c => c.certificate_bundle_status ≠ .ACTIVE &&
        c.certificate_bundle_status ≠ .RESERVED) = true := by
    rw [List.any_eq_true]
    exact ⟨c, hc, by simp [hc1, hc2]⟩
  simp only [cancel_certificates]
  rw [if_neg hne, if_pos hany]

theorem cancel_certificates_effect (a : CancelAction) (st : RegState)
    (hq : a.certificate_quantity = none)
    (hp : a.certificate_bundle_percentage = none) (st1 : RegState)
    (heval : cancel_certificates a st = (st1, .ok ())) :
    ∀ b ∈ st1.bundles, b.id ∈ a.granular_certificate_bundle_ids →
      b.certificate_bundle_status = .CANCELLED ∧
      b.beneficiary = a.beneficiary := by
  simp only [cancel_certificates] at heval
  split_ifs at heval <;> try simp at heval
  rw [hq, hp, applyBQP_no_selector] at heval
  have hst := congrArg Prod.fst heval
  simp only at hst
  subst hst
  rw [foldl_updateMatching
    (fun x => { x with certificate_bundle_status := .CANCELLED,
                       beneficiary := a.beneficiary })
    (fun x => rfl)]
  intro b hb hbid
  obtain ⟨x0, hx0, hgx⟩ := List.mem_map.mp hb
  by_cases hcond : ((get_certificate_bundles_by_id
      a.granular_certificate_bundle_ids st.bundles).any
      (fun c => x0.id = c.id)) = true
  · rw [if_pos hcond] at hgx
    rw [← hgx]
    exact ⟨rfl, rfl⟩
  · rw [if_neg hcond] at hgx
    exfalso
    apply hcond
    rw [List.any_eq_true]
    refine ⟨x0, ?_, by simp⟩
    unfold get_certificate_bundles_by_id
    rw [List.mem_filter]
    refine ⟨hx0, ?_⟩
    rw [hgx]
    simpa using hbid

/-- C7.  The cancel flow (`/certificate/cancel` route plus
`cancel_certificates`) raises and changes nothing unless every targeted
bundle is ACTIVE or RESERVED; a full-bundle cancellation that succeeds
sets every targeted bundle's status to CANCELLED and its beneficiary to
the request's beneficiary, defaulted to the requesting account-holder's
user name when absent. -/
theorem C7_cancel_spec (userName : String) (a : CancelAction) (st : RegState) :
    ((∃ c ∈ get_certificate_bundles_by_id
        a.granular_certificate_bundle_ids st.bundles,
      c.certificate_bundle_status ≠ .ACTIVE ∧
      c.certificate_bundle_status ≠ .RESERVED) →
      (certificate_bundle_cancellation userName a st).1 = st ∧
      exceptIsOk (certificate_bundle_cancellation userName a st).2 = false) ∧
    (a.certificate_quantity = none → a.certificate_bundle_percentage = none →
      ∀ st1, certificate_bundle_cancellation userName a st = (st1, .ok ()) →
        ∀ b ∈ st1.bundles, b.id ∈ a.granular_certificate_bundle_ids →
          b.certificate_bundle_status = .CANCELLED ∧
          b.beneficiary = some (a.beneficiary.getD userName)) := by
  constructor
  · intro hex
    simp only [certificate_bundle_cancellation]
    by_cases hben : a.beneficiary = none
    · rw [if_pos hben,
        cancel_certificates_status_guard { a with beneficiary := some userName } st hex]
      exact ⟨rfl, rfl⟩
    · rw [if_neg hben, cancel_certificates_status_guard a st hex]
      exact ⟨rfl, rfl⟩
  · intro hq hp st1 heval b hb hbid
    simp only [certificate_bundle_cancellation] at heval
    by_cases hben : a.beneficiary = none
    · rw [if_pos hben] at heval
      have h := cancel_certificates_effect
        { a with beneficiary := some userName } st hq hp st1 heval b hb hbid
      rw [hben]
      exact h
    · rw [if_neg hben] at heval
      have h := cancel_certificates_effect a st hq hp st1 heval b hb hbid
      obtain ⟨s, hs⟩ := Option.ne_none_iff_exists.mp hben
      rw [← hs] at h ⊢
      exact ⟨h.1, h.2⟩

def c4Bundle : GCBundle :=
  { id := 10, issuance_id := [], account_id := 1, device_id := 1,
    certificate_bundle_status := .ACTIVE,
    certificate_bundle_id_range_start := 1,
    certificate_bundle_id_range_end := 100,
    bundle_quantity := 100, beneficiary := none,
    energy_source := "wind",
    production_starting_interval := ⟨2024, 1, 1, 0, 0, 0⟩,
    production_ending_interval := ⟨2024, 1, 1, 1, 0, 0⟩,
    is_deleted := false }

def c4State : RegState := ⟨[c4Bundle], 11⟩

def c4Action : TransferAction := ⟨1, 2, [10], none, none⟩

/-- Witness for C4: without a whitelist edge the transfer errors and the
state is untouched; with the edge present, the targeted bundle lands in
the target account. -/
theorem C4_transfer_preconditions_witness :
    ((transfer_certificates [1, 2] [] c4Action c4State).1 = c4State ∧
      exceptIsOk (transfer_certificates [1, 2] [] c4Action c4State).2 = false) ∧
    (∀ b ∈ (transfer_certificates [1, 2] [⟨1, 2, false⟩] c4Action
        c4State).1.bundles,
      b.id ∈ c4Action.granular_certificate_bundle_ids →
        b.account_id = c4Action.target_id) :=
  ⟨(C4_transfer_preconditions [1, 2] [] c4Action c4State).1 (by decide),
   (C4_transfer_preconditions [1, 2] [⟨1, 2, false⟩] c4Action c4State).2
     rfl rfl
     (transfer_certificates [1, 2] [⟨1, 2, false⟩] c4Action c4State).1 rfl⟩

def c7Cancelled : GCBundle :=
  { id := 20, issuance_id := [], account_id := 1, device_id := 1,
    certificate_bundle_status := .CANCELLED,
    certificate_bundle_id_range_start := 1,
    certificate_bundle_id_range_end := 100,
    bundle_quantity := 100, beneficiary := none,
    energy_source := "wind",
    production_starting_interval := ⟨2024, 1, 1, 0, 0, 0⟩,
    production_ending_interval := ⟨2024, 1, 1, 1, 0, 0⟩,
    is_deleted := false }

def c7Action : CancelAction := ⟨1, [10], none, none, none⟩

/-- Witness for C7: cancelling an already-CANCELLED bundle errors with
the state untouched; a full-bundle cancel of an ACTIVE bundle with no
beneficiary given succeeds and writes the account-holder's name. -/
theorem C7_cancel_spec_witness :
    ((certificate_bundle_cancellation "Alice"
        { c7Action with granular_certificate_bundle_ids := [20] }
        ⟨[c7Cancelled], 21⟩).1 = ⟨[c7Cancelled], 21⟩ ∧
      exceptIsOk (certificate_bundle_cancellation "Alice"
        { c7Action with granular_certificate_bundle_ids := [20] }
        ⟨[c7Cancelled], 21⟩).2 = false) ∧
    (∀ b ∈ (certificate_bundle_cancellation "Alice" c7Action
        c4State).1.bundles,
      b.id ∈ c7Action.granular_certificate_bundle_ids →
        b.certificate_bundle_status = .CANCELLED ∧
        b.beneficiary = some (c7Action.beneficiary.getD "Alice")) :=
  ⟨(C7_cancel_spec "Alice"
      { c7Action with granular_certificate_bundle_ids := [20] }
      ⟨[c7Cancelled], 21⟩).1 (by decide),
   (C7_cancel_spec "Alice" c7Action c4State).2 rfl rfl
     (certificate_bundle_cancellation "Alice" c7Action c4State).1 rfl⟩

/-- The pydantic field constraint on `certificate_bundle_percentage`
(`gc_registry/certificate/schemas.py` lines 388-395): `gt=0, le=1`. -/
def percentage_accepted (p : Rat) : Bool := 0 < p && p ≤ 1

def c6Bundle : GCBundle :=
  { id := 30, issuance_id := [], account_id := 1, device_id := 1,
    certificate_bundle_status := .ACTIVE,
    certificate_bundle_id_range_start := 1,
    certificate_bundle_id_range_end := 100,
    bundle_quantity := 100, beneficiary := none,
    energy_source := "wind",
    production_starting_interval := ⟨2024, 1, 1, 0, 0, 0⟩,
    production_ending_interval := ⟨2024, 1, 1, 1, 0, 0⟩,
    is_deleted := false }

/-- C6, evaluated at the failing input.  The validator rejects 0 and
values above 1 and accepts exactly 1; but an action carrying percentage
1.0 on a 100-certificate bundle computes `int(1.0 * 100) = 100` and
always splits, so `split_certificate_bundle` receives a size equal to
the bundle quantity and raises — unlike the selector-free action on the
same bundle, which succeeds and acts on the whole bundle. -/
theorem C6_percentage_one_raises :
    percentage_accepted 0 = false ∧
    percentage_accepted (3 / 2) = false ∧
    percentage_accepted 1 = true ∧
    (apply_bundle_quantity_or_percentage [c6Bundle] none (some 1)
      ⟨[c6Bundle], 31⟩).2 =
      .error "The size to split must be less than the total certificates in the parent bundle" ∧
    (apply_bundle_quantity_or_percentage [c6Bundle] none none
      ⟨[c6Bundle], 31⟩).2 = .ok [c6Bundle] := by
  refine ⟨by norm_num [percentage_accepted], by norm_num [percentage_accepted],
    by norm_num [percentage_accepted], ?_, by simp [applyBQP_no_selector]⟩
  have hsize : pyInt (1 * ((100 : Int) : Rat)) = 100 := by
    norm_num [pyInt]
  simp only [apply_bundle_quantity_or_percentage]
  rw [if_neg (by simp)]
  show (applyBQPLoop none ([c6Bundle].zip
    ([c6Bundle].map (fun b => pyInt (1 * (b.bundle_quantity : Rat)))))
    ⟨[c6Bundle], 31⟩ []).2 = _
  simp only [List.map_cons, List.map_nil, List.zip_cons_cons, List.zip_nil_right]
  rw [show (c6Bundle.bundle_quantity : Rat) = ((100 : Int) : Rat) from rfl, hsize]
  simp [applyBQPLoop, split_certificate_bundle, c6Bundle]

/-! ### Query engine (`query_certificate_bundles`,
`gc_registry/certificate/services.py` lines 634-714). -/

/-- The filter fields of `GranularCertificateQuery`
(`gc_registry/certificate/schemas.py`). -/
structure GCQuery where
  source_id : Nat
  issuance_ids : Option (List (List Char))
  device_id : Option Nat
  energy_source : Option String
  certificate_period_start : Option PyDateTime
  certificate_period_end : Option PyDateTime
  certificate_bundle_status : Option CertificateStatus
deriving DecidableEq, Repr

def decodeIssuanceIds : List (List Char) →
    Except String (List (Nat × PyDateTime))
  | [] => .ok []
  | s :: rest =>
    match issuance_id_to_device_and_interval s with
    | .error m => .error m
    | .ok p => (decodeIssuanceIds rest).map (fun l => p :: l)

/-- `query_certificate_bundles`: the base statement filters on the
account (`source_id`) and excludes soft-deleted rows; the filter
parameters are then folded in — but an `issuance_ids` filter REPLACES
the statement with a bare OR of `(device_id, production_starting_interval)`
matches and breaks out of the loop, dropping the account and
soft-delete filters. -/
def query_certificate_bundles (q : GCQuery) (db : List GCBundle) :
    Except String (List GCBundle) :=
  match q.issuance_ids with
  | some ids =>
    (decodeIssuanceIds ids).map (fun pairs =>
      db.filter (fun b => pairs.any (fun p =>
        b.device_id = p.1 && b.production_starting_interval = p.2)))
  | none =>
    let r0 := db.filter (fun b =>
      b.account_id = q.source_id && b.is_deleted = false)
    let r1 := match q.device_id with
      | some d => r0.filter (fun b => b.device_id = d)
      | none => r0
    let r2 := match q.energy_source with
      | some e => r1.filter (fun b => b.energy_source = e)
      | none => r1
    let r3 := match q.certificate_period_start with
      | some t => r2.filter (fun b => t.leb b.production_starting_interval)
      | none => r2
    let r4 := match q.certificate_period_end with
      | some t => r3.filter (fun b => b.production_ending_interval.leb t)
      | none => r3
    let r5 := match q.certificate_bundle_status with
      | some s => r4.filter (fun b => b.certificate_bundle_status = s)
      | none => r4
    .ok r5

def c5Foreign : GCBundle :=
  { id := 2, issuance_id := [], account_id := 7, device_id := 2,
    certificate_bundle_status := .ACTIVE,
    certificate_bundle_id_range_start := 1,
    certificate_bundle_id_range_end := 100,
    bundle_quantity := 100, beneficiary := none,
    energy_source := "wind",
    production_starting_interval := ⟨2024, 1, 1, 0, 0, 0⟩,
    production_ending_interval := ⟨2024, 1, 1, 1, 0, 0⟩,
    is_deleted := true }

def c5Query : GCQuery :=
  { source_id := 1,
    issuance_ids := some ["2-2024-01-01 00:00:00".data],
    device_id := none, energy_source := none,
    certificate_period_start := none, certificate_period_end := none,
    certificate_bundle_status := none }

/-- C5, evaluated at the failing input: a query for account 1 filtering
by an issuance ID returns a bundle that belongs to account 7 and is
soft-deleted, because the `issuance_ids` branch rebuilds the statement
without the account and `is_deleted` filters.  The same database queried
without `issuance_ids` returns nothing for account 1. -/
theorem C5_issuance_ids_drop_scope :
    query_certificate_bundles c5Query [c5Foreign] = .ok [c5Foreign] ∧
    c5Foreign.account_id ≠ c5Query.source_id ∧
    c5Foreign.is_deleted = true ∧
    query_certificate_bundles { c5Query with issuance_ids := none }
      [c5Foreign] = .ok [] :=
  ⟨rfl, by decide, rfl, rfl⟩

/-! ### Storage allocation validation (`gc_registry/storage/validation.py`
and the validation phase of `issue_sdgcs_against_allocated_records` in
`gc_registry/storage/services.py`). -/

theorem leb_refl (a : PyDateTime) : a.leb a = true := by
  simp [PyDateTime.leb]

theorem leb_total (a b : PyDateTime) : a.leb b = true ∨ b.leb a = true := by
  unfold PyDateTime.leb
  split_ifs <;> simp only [decide_eq_true_eq] <;> omega

theorem ltb_false_imp_leb {a b : PyDateTime} (h : a.ltb b = false) :
    b.leb a = true := by
  by_cases hab : a = b
  · subst hab
    exact leb_refl a
  · have hleb : a.leb b = false := by
      by_contra hc
      rw [Bool.not_eq_false] at hc
      unfold PyDateTime.ltb at h
      rw [hc] at h
      simp [hab] at h
    rcases leb_total a b with hx | hx
    · rw [hx] at hleb
      exact absurd hleb (by simp)
    · exact hx

/-- `StorageRecord` (`gc_registry/storage/models.py`): one contiguous
charge or discharge flow for a storage device. -/
structure StorageRecord where
  id : Nat
  device_id : Nat
  is_charging : Bool
  flow_start_datetime : PyDateTime
  flow_end_datetime : PyDateTime
  flow_energy : Int
deriving DecidableEq, Repr

/-- `AllocatedStorageRecord` (`gc_registry/storage/models.py`): the
SCR/SDR/GC ternary match. -/
structure AllocatedStorageRecord where
  id : Nat
  scr_allocation_id : Nat
  sdr_allocation_id : Nat
  gc_allocation_id : Option Nat
  sdr_proportion : Rat
deriving DecidableEq, Repr

/-- `validate_allocated_records` (`storage/validation.py` lines
136-151): reject when the SDR is a charging record or the SCR is not,
and when the SDR's flow start precedes the SCR's flow end. -/
def validate_allocated_records (sdr scr : StorageRecord) :
    Except String Unit :=
  if sdr.is_charging || !scr.is_charging then
    .error "Invalid flow types for the specified allocation IDs"
  else if sdr.flow_start_datetime.ltb scr.flow_end_datetime then
    .error "SDR flow start datetime is after SCR flow end datetime"
  else .ok ()

/-- `validate_allocated_records_against_gc_bundles`
(`storage/validation.py` lines 154-227): per allocated record, resolve
the GC bundle and the SCR by id, then require the bundle quantity to
equal `sdr_proportion * scr.flow_energy` and the bundle's production
start to fall within the SCR's flow window. -/
def validate_allocated_records_against_gc_bundles :
    List AllocatedStorageRecord → List StorageRecord → List GCBundle →
    Except String Unit
  | [], _, _ => .ok ()
  | r :: rest, charge, gcs =>
    match gcs.find? (fun b => r.gc_allocation_id = some b.id),
          charge.find? (fun c => c.id = r.scr_allocation_id) with
    | none, _ => .error "GC Bundle not found"
    | some _, none => .error "SCR Record not found"
    | some b, some scr =>
      if (b.bundle_quantity : Rat) ≠ r.sdr_proportion * (scr.flow_energy : Rat) then
        .error "GC Bundle does not have sufficient quantity"
      else if b.production_starting_interval.ltb scr.flow_start_datetime then
        .error "GC Bundle does not have sufficient start datetime"
      else if scr.flow_end_datetime.ltb b.production_starting_interval then
        .error "GC Bundle does not have sufficient end datetime"
      else validate_allocated_records_against_gc_bundles rest charge gcs

/-- The validation phase of `issue_sdgcs_against_allocated_records`
(`storage/services.py` lines 183-239): collect the CANCELLED bundles
referenced by the records, require one per record, then run
`validate_allocated_records_against_gc_bundles` against them. -/
def issue_sdgcs_validation (recs : List AllocatedStorageRecord)
    (db : List GCBundle) (charge : List StorageRecord) :
    Except String Unit :=
  let cancelled := db.filter (fun b =>
    (recs.any (fun r => r.gc_allocation_id = some b.id)) &&
    b.certificate_bundle_status = .CANCELLED)
  if cancelled.length ≠ recs.length then
    .error "One or more specified GC bundle IDs do not exist or have not been cancelled"
  else
    validate_allocated_records_against_gc_bundles recs charge cancelled

theorem validate_against_ok (charge : List StorageRecord)
    (gcs : List GCBundle) (recs : List AllocatedStorageRecord)
    (hok : validate_allocated_records_against_gc_bundles recs charge gcs =
      .ok ()) :
    ∀ r ∈ recs, ∃ b ∈ gcs, ∃ scr ∈ charge,
      r.gc_allocation_id = some b.id ∧
      (b.bundle_quantity : Rat) = r.sdr_proportion * (scr.flow_energy : Rat) ∧
      scr.id = r.scr_allocation_id ∧
      scr.flow_start_datetime.leb b.production_starting_interval = true ∧
      b.production_starting_interval.leb scr.flow_end_datetime = true := by
  induction recs with
  | nil =>
    intro r hr
    simp at hr
  | cons r0 rest ih =>
    intro r hr
    unfold validate_allocated_records_against_gc_bundles at hok
    split at hok
    · exact absurd hok (by simp)
    · exact absurd hok (by simp)
    · rename_i b scr hfind1 hfind2
      split_ifs at hok with hq hlt1 hlt2
      have hbmem := List.mem_of_find?_eq_some hfind1
      have hbpred := List.find?_some hfind1
      have hsmem := List.mem_of_find?_eq_some hfind2
      have hspred := List.find?_some hfind2
      simp only [decide_eq_true_eq] at hbpred hspred
      rcases List.mem_cons.mp hr with rfl | hr2
      · refine ⟨b, hbmem, scr, hsmem, hbpred, not_not.mp hq, hspred, ?_, ?_⟩
        · exact ltb_false_imp_leb (Bool.not_eq_true _ ▸ hlt1)
        · exact ltb_false_imp_leb (Bool.not_eq_true _ ▸ hlt2)
      · exact ih hok r hr2

/-- C9.  `validate_allocated_records` rejects exactly when the SDR is a
charging record, the SCR is not a charging record, or the SDR's flow
start precedes the SCR's flow end; and when the SD-GC issuance
validation phase succeeds, every allocated record's `gc_allocation_id`
resolves to an existing CANCELLED bundle whose quantity equals
`sdr_proportion * scr.flow_energy` and whose production start lies
within the SCR's flow window. -/
theorem C9_storage_allocation_validation :
    (∀ sdr scr : StorageRecord,
      exceptIsOk (validate_allocated_records sdr scr) = false ↔
        (sdr.is_charging = true ∨ scr.is_charging = false ∨
          sdr.flow_start_datetime.ltb scr.flow_end_datetime = true)) ∧
    (∀ (recs : List AllocatedStorageRecord) (db : List GCBundle)
        (charge : List StorageRecord),
      issue_sdgcs_validation recs db charge = .ok () →
      ∀ r ∈ recs, ∃ b ∈ db, ∃ scr ∈ charge,
        r.gc_allocation_id = some b.id ∧
        b.certificate_bundle_status = .CANCELLED ∧
        (b.bundle_quantity : Rat) = r.sdr_proportion * (scr.flow_energy : Rat) ∧
        scr.id = r.scr_allocation_id ∧
        scr.flow_start_datetime.leb b.production_starting_interval = true ∧
        b.production_starting_interval.leb scr.flow_end_datetime = true) := by
  constructor
  · intro sdr scr
    unfold validate_allocated_records
    split_ifs with h1 h2
    · simp only [exceptIsOk, true_iff]
      have h1p : sdr.is_charging = true ∨ scr.is_charging = false := by
        simpa using h1
      rcases h1p with hb | hb
      · exact Or.inl hb
      · exact Or.inr (Or.inl hb)
    · simp only [exceptIsOk, true_iff]
      exact Or.inr (Or.inr h2)
    · simp only [exceptIsOk]
      constructor
      · intro hfalse
        exact absurd hfalse (by decide)
      · intro hdisj
        exfalso
        rcases hdisj with hb | hb | hb
        · exact h1 (by simp [hb])
        · exact h1 (by simp [hb])
        · exact h2 hb
  · intro recs db charge hok r hr
    simp only [issue_sdgcs_validation] at hok
    split_ifs at hok with hlen
    have hall := validate_against_ok charge _ recs hok r hr
    obtain ⟨b, hbmem, scr, hsmem, h1, h2, h3, h4, h5⟩ := hall
    rw [List.mem_filter, Bool.and_eq_true] at hbmem
    refine ⟨b, hbmem.1, scr, hsmem, h1, ?_, h2, h3, h4, h5⟩
    simpa using hbmem.2.2

def c9Bundle : GCBundle :=
  { id := 50, issuance_id := [], account_id := 1, device_id := 3,
    certificate_bundle_status := .CANCELLED,
    certificate_bundle_id_range_start := 1,
    certificate_bundle_id_range_end := 500,
    bundle_quantity := 500, beneficiary := none,
    energy_source := "wind",
    production_starting_interval := ⟨2024, 1, 1, 10, 0, 0⟩,
    production_ending_interval := ⟨2024, 1, 1, 11, 0, 0⟩,
    is_deleted := false }

def c9Scr : StorageRecord :=
  { id := 60, device_id := 3, is_charging := true,
    flow_start_datetime := ⟨2024, 1, 1, 0, 0, 0⟩,
    flow_end_datetime := ⟨2024, 1, 2, 0, 0, 0⟩,
    flow_energy := 1000 }

def c9Sdr : StorageRecord :=
  { id := 61, device_id := 3, is_charging := false,
    flow_start_datetime := ⟨2024, 1, 2, 0, 0, 0⟩,
    flow_end_datetime := ⟨2024, 1, 2, 1, 0, 0⟩,
    flow_energy := 500 }

def c9Rec : AllocatedStorageRecord :=
  { id := 70, scr_allocation_id := 60, sdr_allocation_id := 61,
    gc_allocation_id := some 50, sdr_proportion := 1 / 2 }

/-- Witness for C9: a concrete SCR/SDR pair that the flow validator
rejects when swapped and accepts as given, and a concrete allocated
record whose issuance validation succeeds, with the claimed facts
recovered through the theorem. -/
theorem C9_storage_allocation_validation_witness :
    (exceptIsOk (validate_allocated_records c9Scr c9Scr) = false ↔
      (c9Scr.is_charging = true ∨ c9Scr.is_charging = false ∨
        c9Scr.flow_start_datetime.ltb c9Scr.flow_end_datetime = true)) ∧
    (∀ r ∈ [c9Rec], ∃ b ∈ [c9Bundle], ∃ scr ∈ [c9Scr, c9Sdr],
      r.gc_allocation_id = some b.id ∧
      b.certificate_bundle_status = .CANCELLED ∧
      (b.bundle_quantity : Rat) = r.sdr_proportion * (scr.flow_energy : Rat) ∧
      scr.id = r.scr_allocation_id ∧
      scr.flow_start_datetime.leb b.production_starting_interval = true ∧
      b.production_starting_interval.leb scr.flow_end_datetime = true) := by
  constructor
  · exact C9_storage_allocation_validation.1 c9Scr c9Scr
  · refine C9_storage_allocation_validation.2 [c9Rec] [c9Bundle] [c9Scr, c9Sdr] ?_
    simp only [issue_sdgcs_validation]
    rw [if_neg (by decide)]
    simp only [validate_allocated_records_against_gc_bundles]
    rw [show ([c9Bundle].filter (fun b =>
        (([c9Rec].any (fun r => r.gc_allocation_id = some b.id))) &&
        b.certificate_bundle_status = .CANCELLED)).find?
        (fun b => c9Rec.gc_allocation_id = some b.id) = some c9Bundle from by decide]
    rw [show ([c9Scr, c9Sdr].find?
        (fun c => c.id = c9Rec.scr_allocation_id)) = some c9Scr from by decide]
    show (if ((c9Bundle.bundle_quantity : Rat) ≠
          c9Rec.sdr_proportion * (c9Scr.flow_energy : Rat)) then
        Except.error "GC Bundle does not have sufficient quantity"
      else if c9Bundle.production_starting_interval.ltb
          c9Scr.flow_start_datetime = true then
        Except.error "GC Bundle does not have sufficient start datetime"
      else if c9Scr.flow_end_datetime.ltb
          c9Bundle.production_starting_interval = true then
        Except.error "GC Bundle does not have sufficient end datetime"
      else Except.ok ()) = Except.ok ()
    rw [if_neg (by norm_num [c9Bundle, c9Rec, c9Scr]),
      if_neg (by decide), if_neg (by decide)]
